import Mathlib

/-!
Shallow embedding of the EasyConnect (DPP) configurator engine of the
unified-wifi-mesh repository: the role-agnostic base engine
(`ec_configurator.h`) and the Proxy-Agent role engine
(`ec_pa_configurator.h`).

Conventions of the embedding:
* MAC addresses are `String`s (the C++ map is keyed by `std::string`).
* Raw byte buffers (`uint8_t*` + length) are `List Nat`.
* `std::map` members are association lists `List (String × α)` with
  `std::map::find`-style lookup; `std::function` capability bindings are
  Lean function fields of an immutable capability record, fixed at
  construction (the engine never rebinds them, matching the source where
  they are set once in the constructor).
* A possibly-empty `std::function` (one that may be `{}`) is an `Option`
  of a function.
* Pointer-returning lookups become `Option`-returning functions.
* Handler results carry the returned success flag, the new engine state,
  and the list of transport calls made during the handler, in order.

The inline member functions of `ec_configurator.h` (teardown_connection,
get_conn_ctx, get_eph_ctx, get_boot_data, clear_conn_eph_ctx) and the
`ec_pa_configurator_t` constructor are translated directly from the
source. The out-of-line handler bodies are not part of the provided
sources; they are modelled from the spec, each marked in its doc comment.
-/

/-- Ephemeral per-connection crypto session state (`ec_ephemeral_context_t`):
nonce and digest buffers as raw bytes, plus derived session key material. -/
structure ec_ephemeral_context_t where
  nonce : List Nat
  digest : List Nat
  session_keys : List Nat
deriving DecidableEq, Repr

/-- Bootstrapping data parsed from the Enrollee's DPP URI (`ec_data_t`):
the enrollee link-layer address and public-key material. -/
structure ec_data_t where
  mac : Option String
  pubkey : List Nat
deriving DecidableEq, Repr

/-- Per-enrollee connection context (`ec_connection_context_t`): ephemeral
crypto material, bootstrapping data, and the explicitly tracked lengths of
the nonce and digest buffers. -/
structure ec_connection_context_t where
  eph_ctx : ec_ephemeral_context_t
  boot_data : ec_data_t
  nonce_len : Nat
  digest_len : Nat
deriving DecidableEq, Repr

/-- DPP chirp value TLV (`em_dpp_chirp_value_t`): the announced
bootstrapping-key hash and the announcing MAC. -/
structure em_dpp_chirp_value_t where
  hash : String
  mac : String
deriving DecidableEq, Repr

/-- A presence-announcement 802.11 frame (`ec_frame_t`) as the engine sees
it: the embedded bootstrapping-key hash when parseable, and the raw bytes. -/
structure ec_frame_t where
  boot_hash : Option String
  bytes : List Nat
deriving DecidableEq, Repr

/-- Payload of a 1905 Encap DPP TLV after the codec collaborator has
classified it: a proxied configuration result, a proxied connection-status
result, or a reconfiguration authentication frame. -/
inductive encap_payload where
  | cfg_result (dest : String) (frame : List Nat)
  | conn_status_result (dest : String) (frame : List Nat)
  | recfg_auth (frame : List Nat)
deriving DecidableEq, Repr

/-- 1905 Encap DPP TLV (`em_encap_dpp_t`); `payload = none` models a TLV the
codec cannot classify. -/
structure em_encap_dpp_t where
  payload : Option encap_payload
deriving DecidableEq, Repr

/-- One call made on a transport capability binding, recorded in order. -/
inductive transport_call where
  | chirp (tlv : em_dpp_chirp_value_t) (len : Nat)
  | encap (tlv : em_encap_dpp_t) (len : Nat) (chirp_tlv : Option em_dpp_chirp_value_t) (chirp_len : Nat)
  | action_frame (dest : String) (frame : List Nat) (freq : Nat) (wait : Nat)
deriving DecidableEq, Repr

/-- Association-list lookup, the embedding of `std::map::find`. -/
def lookupA {α : Type} (m : List (String × α)) (k : String) : Option α :=
  match m with
  | [] => none
  | (k0, v) :: rest => if k0 = k then some v else lookupA rest k

/-- Association-list insert-or-overwrite, the embedding of
`std::map::operator[] =` / `insert`. -/
def insertA {α : Type} (m : List (String × α)) (k : String) (v : α) : List (String × α) :=
  match m with
  | [] => [(k, v)]
  | (k0, v0) :: rest => if k0 = k then (k, v) :: rest else (k0, v0) :: insertA rest k v

/-- Association-list erase, the embedding of `std::map::erase`. -/
def eraseA {α : Type} (m : List (String × α)) (k : String) : List (String × α) :=
  match m with
  | [] => []
  | (k0, v0) :: rest => if k0 = k then rest else (k0, v0) :: eraseA rest k

/-- The connection-context store `m_connections`. -/
abbrev conn_map := List (String × ec_connection_context_t)

/-- Modelled from the spec: `ec_crypto::free_ephemeral_context` is defined
in `ec_crypto`, which is not part of the provided sources. The spec requires
a teardown hit to scrub the ephemeral context, its nonce and digest buffers
over their explicitly tracked lengths, releasing derived key material. The
model zeroises the nonce buffer over `nonce_len`, the digest buffer over
`digest_len`, and drops the session keys. -/
def free_ephemeral_context (_e : ec_ephemeral_context_t) (nonce_len digest_len : Nat) :
    ec_ephemeral_context_t :=
  { nonce := List.replicate nonce_len 0
    digest := List.replicate digest_len 0
    session_keys := [] }

/-- Modelled from the spec: `ec_crypto::free_connection_ctx` is defined in
`ec_crypto`, which is not part of the provided sources. It releases the
connection-level material of the context (the parsed bootstrapping data),
leaving the ephemeral context to `free_ephemeral_context`. -/
def free_connection_ctx (c : ec_connection_context_t) : ec_connection_context_t :=
  { c with boot_data := { mac := c.boot_data.mac, pubkey := [] } }

/-- `ec_configurator_t::teardown_connection`, translated from the source
(`ec_configurator.h` lines 302-308): find the context for `mac` in
`m_connections`; a miss returns immediately; a hit frees the connection
context and then the ephemeral context with the tracked lengths. The source
does NOT erase the map entry afterwards. -/
def teardown_connection (conns : conn_map) (mac : String) : conn_map :=
  match lookupA conns mac with
  | none => conns
  | some c =>
      let c1 := free_connection_ctx c
      let c2 := { c1 with eph_ctx := free_ephemeral_context c1.eph_ctx c1.nonce_len c1.digest_len }
      insertA conns mac c2

/-- `ec_configurator_t::get_conn_ctx` (`ec_configurator.h` lines 364-369):
`NULL` on a miss, otherwise the stored context. -/
def get_conn_ctx (conns : conn_map) (mac : String) : Option ec_connection_context_t :=
  match lookupA conns mac with
  | none => none
  | some c => some c

/-- `ec_configurator_t::get_eph_ctx` (`ec_configurator.h` lines 385-392):
goes through `get_conn_ctx`; `NULL` on a miss, otherwise the context's
ephemeral context. -/
def get_eph_ctx (conns : conn_map) (mac : String) : Option ec_ephemeral_context_t :=
  match get_conn_ctx conns mac with
  | none => none
  | some c => some c.eph_ctx

/-- `ec_configurator_t::get_boot_data` (`ec_configurator.h` lines 408-415):
`NULL` on a miss, otherwise the context's bootstrapping data. -/
def get_boot_data (conns : conn_map) (mac : String) : Option ec_data_t :=
  match lookupA conns mac with
  | none => none
  | some c => some c.boot_data

/-- `ec_configurator_t::clear_conn_eph_ctx` (`ec_configurator.h` lines
428-433): a miss is a no-op; a hit frees the ephemeral context with the
tracked lengths, in place. -/
def clear_conn_eph_ctx (conns : conn_map) (mac : String) : conn_map :=
  match lookupA conns mac with
  | none => conns
  | some c =>
      insertA conns mac
        { c with eph_ctx := free_ephemeral_context c.eph_ctx c.nonce_len c.digest_len }

/-- The fields stored by the `ec_configurator_t` constructor: this device's
MAC address and the six capability bindings (`ec_configurator.h` lines
331-345). Bindings are bound once at construction and the engine never
rebinds them, so they live in this immutable record rather than in the
mutable state. A possibly-empty `std::function` binding is an `Option`. -/
structure ec_configurator_fields where
  m_mac_addr : String
  m_send_chirp_notification : em_dpp_chirp_value_t → Nat → Bool
  m_send_prox_encap_dpp_msg : em_encap_dpp_t → Nat → Option em_dpp_chirp_value_t → Nat → Bool
  m_send_action_frame : String → List Nat → Nat → Nat → Bool
  m_get_backhaul_sta_info : Option ec_connection_context_t → Option (List Nat)
  m_get_1905_info : Option ec_connection_context_t → Option (List Nat)
  m_can_onboard_additional_aps : Option (Unit → Bool)

/-- Modelled from the spec: the `ec_configurator_t` constructor body is not
part of the provided sources (only its declaration, `ec_configurator.h`
lines 89-91); per the spec the capability bindings are supplied at
construction and stored unchanged. -/
def ec_configurator_ctor (mac_addr : String)
    (send_chirp_notification : em_dpp_chirp_value_t → Nat → Bool)
    (send_prox_encap_dpp_msg : em_encap_dpp_t → Nat → Option em_dpp_chirp_value_t → Nat → Bool)
    (send_action_frame : String → List Nat → Nat → Nat → Bool)
    (backhaul_sta_info_func : Option ec_connection_context_t → Option (List Nat))
    (ieee1905_info_func : Option ec_connection_context_t → Option (List Nat))
    (can_onboard_func : Option (Unit → Bool)) : ec_configurator_fields :=
  { m_mac_addr := mac_addr
    m_send_chirp_notification := send_chirp_notification
    m_send_prox_encap_dpp_msg := send_prox_encap_dpp_msg
    m_send_action_frame := send_action_frame
    m_get_backhaul_sta_info := backhaul_sta_info_func
    m_get_1905_info := ieee1905_info_func
    m_can_onboard_additional_aps := can_onboard_func }

/-- The fields of `ec_pa_configurator_t`: the base-class fields plus the
CCE-IE toggle binding `m_toggle_cce` (`ec_pa_configurator.h` line 166). -/
structure ec_pa_configurator_fields where
  base : ec_configurator_fields
  m_toggle_cce : Bool → Bool

/-- The `ec_pa_configurator_t` constructor, translated from the source
(`ec_pa_configurator.h` lines 29-46): it forwards its arguments to the base
constructor, passing `{}` — the empty `std::function`, i.e. `none` — for the
can-onboard-additional-APs binding, and stores the toggle binding. -/
def ec_pa_configurator_ctor (mac_addr : String)
    (send_chirp_notification : em_dpp_chirp_value_t → Nat → Bool)
    (send_prox_encap_dpp_msg : em_encap_dpp_t → Nat → Option em_dpp_chirp_value_t → Nat → Bool)
    (send_action_frame : String → List Nat → Nat → Nat → Bool)
    (get_sta_info_func : Option ec_connection_context_t → Option (List Nat))
    (ieee1905_info_func : Option ec_connection_context_t → Option (List Nat))
    (toggle_cce_fn : Bool → Bool) : ec_pa_configurator_fields :=
  { base := ec_configurator_ctor mac_addr send_chirp_notification send_prox_encap_dpp_msg
      send_action_frame get_sta_info_func ieee1905_info_func none
    m_toggle_cce := toggle_cce_fn }

/-- The mutable state of a Proxy-Agent engine instance: the inherited
connection-context store `m_connections` (`ec_configurator.h` line 348) and
the two correlation caches `m_chirp_hash_frame_map` (hash of the announced
bootstrapping key ↦ announcing MAC and raw announcement frame,
`ec_pa_configurator.h` line 173) and `m_stored_recfg_auth_frames`
(`ec_pa_configurator.h` line 178). -/
structure ec_pa_state where
  m_connections : conn_map
  m_chirp_hash_frame_map : List (String × (String × List Nat))
  m_stored_recfg_auth_frames : List (List Nat)
deriving DecidableEq, Repr

/-- Result of one handler invocation: the returned success flag, the engine
state after the call, and the transport calls made, in order. -/
structure hres where
  ok : Bool
  st : ec_pa_state
  sent : List transport_call
deriving DecidableEq, Repr

/-- The external crypto/codec collaborator used by the handler bodies
(`ec_crypto` and the frame codecs are outside the provided sources): key
derivation for a fresh ephemeral context (may fail), construction of the
first protocol message, advancing the authentication exchange (may fail),
and the reconfiguration-frame consistency check against the Controller's
C-sign key. -/
structure ec_crypto_ops where
  derive_eph_ctx : ec_data_t → Option ec_ephemeral_context_t
  build_auth_request : ec_data_t → List Nat
  advance_auth : ec_frame_t → ec_connection_context_t → Option (ec_connection_context_t × List Nat)
  recfg_matches : List Nat → List Nat → Bool

/-- Modelled from the spec: extraction of the bootstrapping-key hash from a
chirp TLV (codec collaborator, not in the provided sources). A zero-length
TLV is the ParseError case. -/
def parse_chirp_hash (chirp_tlv : em_dpp_chirp_value_t) (tlv_len : Nat) : Option String :=
  if tlv_len = 0 then none else some chirp_tlv.hash

/-- Modelled from the spec: parsing the embedded bootstrapping-key hash out
of a presence-announcement frame (codec collaborator, not in the provided
sources). A zero-length frame, or a frame with no parseable hash, is the
ParseError case. -/
def parse_presence_hash (frame : ec_frame_t) (len : Nat) : Option String :=
  if len = 0 then none else frame.boot_hash

/-- Modelled from the spec: classification of a 1905 Encap DPP TLV (codec
collaborator, not in the provided sources). A zero-length TLV is the
ParseError case. -/
def parse_encap (encap_tlv : em_encap_dpp_t) (len : Nat) : Option encap_payload :=
  if len = 0 then none else encap_tlv.payload

/-- Modelled from the spec: the body of
`ec_pa_configurator_t::handle_presence_announcement` is not in the provided
sources (declared at `ec_pa_configurator.h` line 63). Per the spec: parse
the embedded bootstrapping-key hash; cache the raw announcement frame in
the chirp-hash cache keyed by that hash (with the announcing address, so the
Controller's later answer can be routed back); relay a chirp notification
upstream. Failure if the hash cannot be parsed or the relay send fails. -/
def handle_presence_announcement (env : ec_pa_configurator_fields) (_crypto : ec_crypto_ops)
    (s : ec_pa_state) (frame : ec_frame_t) (len : Nat) (src_mac : String) : hres :=
  match parse_presence_hash frame len with
  | none => ⟨false, s, []⟩
  | some h =>
      let s1 := { s with m_chirp_hash_frame_map :=
                    insertA s.m_chirp_hash_frame_map h (src_mac, frame.bytes) }
      let tlv : em_dpp_chirp_value_t := { hash := h, mac := src_mac }
      let ok := env.base.m_send_chirp_notification tlv len
      ⟨ok, s1, [.chirp tlv len]⟩

/-- Modelled from the spec: the body of
`ec_pa_configurator_t::process_chirp_notification` is not in the provided
sources (declared at `ec_pa_configurator.h` line 142). Per the spec: extract
the hash from the incoming chirp; look it up in the chirp-hash cache. Hit:
reconstruct and send a wireless action frame to the original announcing
address, then remove the cache entry (strict one-shot consumption). Miss:
fail; no outstanding request to answer. -/
def process_chirp_notification (env : ec_pa_configurator_fields) (_crypto : ec_crypto_ops)
    (s : ec_pa_state) (chirp_tlv : em_dpp_chirp_value_t) (tlv_len : Nat) : hres :=
  match parse_chirp_hash chirp_tlv tlv_len with
  | none => ⟨false, s, []⟩
  | some h =>
      match lookupA s.m_chirp_hash_frame_map h with
      | none => ⟨false, s, []⟩
      | some entry =>
          let ok := env.base.m_send_action_frame entry.fst entry.snd 0 0
          let s1 := { s with m_chirp_hash_frame_map := eraseA s.m_chirp_hash_frame_map h }
          ⟨ok, s1, [.action_frame entry.fst entry.snd 0 0]⟩

/-- Modelled from the spec: the body of
`ec_pa_configurator_t::handle_auth_response` is not in the provided sources
(declared at `ec_pa_configurator.h` line 80). Per the spec pattern: locate
the connection context for the peer address — a lookup failure returns
failure without attempting a send; on a hit, advance the wireless exchange
through the crypto collaborator — a CryptoFailure scrubs the partly
populated ephemeral context and returns failure; otherwise send the next
wireless frame and return the transport call's success flag. -/
def handle_auth_response (env : ec_pa_configurator_fields) (crypto : ec_crypto_ops)
    (s : ec_pa_state) (frame : ec_frame_t) (_len : Nat) (src_mac : String) : hres :=
  match get_conn_ctx s.m_connections src_mac with
  | none => ⟨false, s, []⟩
  | some c =>
      match crypto.advance_auth frame c with
      | none =>
          ⟨false, { s with m_connections := clear_conn_eph_ctx s.m_connections src_mac }, []⟩
      | some r =>
          let ok := env.base.m_send_action_frame src_mac r.snd 0 0
          ⟨ok, { s with m_connections := insertA s.m_connections src_mac r.fst },
            [.action_frame src_mac r.snd 0 0]⟩

/-- Modelled from the spec: the body of
`ec_pa_configurator_t::process_proxy_encap_dpp_msg` is not in the provided
sources (declared at `ec_pa_configurator.h` line 157). Per the spec: it
dispatches configuration-result / connection-status-result encapsulated
payloads to the corresponding wireless send, and dispatches reconfiguration
authentication payloads by scanning the reconfiguration-frame cache (not
hash-indexed) for a frame consistent with the Controller's signing-key
context; this cache is not one-shot, so the scan never removes an entry.
The outcome of a reconfiguration evaluation is modelled only as the success
flag of the match. -/
def process_proxy_encap_dpp_msg (env : ec_pa_configurator_fields) (crypto : ec_crypto_ops)
    (s : ec_pa_state) (encap_tlv : em_encap_dpp_t) (encap_tlv_len : Nat)
    (_chirp_tlv : Option em_dpp_chirp_value_t) (_chirp_tlv_len : Nat) : hres :=
  match parse_encap encap_tlv encap_tlv_len with
  | none => ⟨false, s, []⟩
  | some p =>
      match p with
      | .cfg_result dest frame =>
          ⟨env.base.m_send_action_frame dest frame 0 0, s, [.action_frame dest frame 0 0]⟩
      | .conn_status_result dest frame =>
          ⟨env.base.m_send_action_frame dest frame 0 0, s, [.action_frame dest frame 0 0]⟩
      | .recfg_auth frame =>
          match s.m_stored_recfg_auth_frames.find? (fun g => crypto.recfg_matches g frame) with
          | none => ⟨false, s, []⟩
          | some _ => ⟨true, s, []⟩

/-- Modelled from the spec: the body of
`ec_configurator_t::onboard_enrollee` is not in the provided sources
(declared at `ec_configurator.h` line 112). Per the spec: consult the
admission-control binding when it is bound; allocate a new connection
context keyed by the address encoded in the bootstrapping data (creation
fails when no address is encoded, or when that address already has a live
context — at most one live context per enrollee address); populate the
ephemeral context through the crypto collaborator (may fail before anything
is inserted); send the role-appropriate first protocol message; if that
initial send fails, tear the partly created context down — scrub and remove
its entry — so the store is as it was before the call. -/
def onboard_enrollee (env : ec_configurator_fields) (crypto : ec_crypto_ops)
    (conns : conn_map) (bootstrapping_data : ec_data_t) :
    Bool × conn_map × List transport_call :=
  match bootstrapping_data.mac with
  | none => (false, conns, [])
  | some addr =>
      let admits : Bool :=
        match env.m_can_onboard_additional_aps with
        | none => true
        | some f => f ()
      if admits = false then (false, conns, [])
      else if (lookupA conns addr).isSome then (false, conns, [])
      else
        match crypto.derive_eph_ctx bootstrapping_data with
        | none => (false, conns, [])
        | some eph =>
            let ctx : ec_connection_context_t :=
              { eph_ctx := eph, boot_data := bootstrapping_data,
                nonce_len := eph.nonce.length, digest_len := eph.digest.length }
            let conns1 := insertA conns addr ctx
            let msg := crypto.build_auth_request bootstrapping_data
            let ok := env.m_send_action_frame addr msg 0 0
            if ok then (true, conns1, [.action_frame addr msg 0 0])
            else (false, eraseA conns1 addr, [.action_frame addr msg 0 0])

/-- Advertised-onboarding-IE state of the local radio: how many
beacon/probe-response frame templates currently carry the CCE IE. -/
structure cce_state where
  advertised : Nat
deriving DecidableEq, Repr

/-- Modelled from the spec: the implementation behind the `toggle_cce_func`
binding (`ec_configurator.h` lines 44-51) is external to the provided
sources; its documented contract is embedded here. `driver_ok` is whether
the underlying driver operation succeeds and `templates` how many
beacon/probe-response templates the radio maintains. Enabling with a
driver failure removes all CCE IEs before returning (fail-closed);
disabling removes all CCE IEs. -/
def toggle_cce (driver_ok : Bool) (templates : Nat) (enable : Bool) (_st : cce_state) :
    Bool × cce_state :=
  if enable then
    if driver_ok then (true, { advertised := templates })
    else (false, { advertised := 0 })
  else (true, { advertised := 0 })

theorem lookupA_insertA_self {α : Type} (m : List (String × α)) (k : String) (v : α) :
    lookupA (insertA m k v) k = some v := by
  induction m with
  | nil => simp [insertA, lookupA]
  | cons hd tl ih =>
      obtain ⟨k0, v0⟩ := hd
      by_cases hk : k0 = k
      · simp [insertA, lookupA, hk]
      · simp [insertA, lookupA, hk, ih]

theorem insertA_insertA_same {α : Type} (m : List (String × α)) (k : String) (v w : α) :
    insertA (insertA m k v) k w = insertA m k w := by
  induction m with
  | nil => simp [insertA]
  | cons hd tl ih =>
      obtain ⟨k0, v0⟩ := hd
      by_cases hk : k0 = k
      · simp [insertA, hk]
      · simp [insertA, hk, ih]

theorem lookupA_eq_none_of_not_mem {α : Type} (m : List (String × α)) (k : String)
    (h : k ∉ m.map Prod.fst) : lookupA m k = none := by
  induction m with
  | nil => simp [lookupA]
  | cons hd tl ih =>
      obtain ⟨k0, v0⟩ := hd
      simp only [List.map_cons, List.mem_cons] at h
      push_neg at h
      simp [lookupA, fun hk : k0 = k => h.1 hk.symm, ih h.2]
      intro hk
      exact absurd hk.symm h.1

theorem lookupA_eraseA_self_of_nodup {α : Type} (m : List (String × α)) (k : String)
    (h : (m.map Prod.fst).Nodup) : lookupA (eraseA m k) k = none := by
  induction m with
  | nil => simp [eraseA, lookupA]
  | cons hd tl ih =>
      obtain ⟨k0, v0⟩ := hd
      simp only [List.map_cons, List.nodup_cons] at h
      by_cases hk : k0 = k
      · subst hk
        simp [eraseA, lookupA_eq_none_of_not_mem tl k0 h.1]
      · simp [eraseA, lookupA, hk, ih h.2]

theorem eraseA_insertA_of_not_mem {α : Type} (m : List (String × α)) (k : String) (v : α)
    (h : lookupA m k = none) : eraseA (insertA m k v) k = m := by
  induction m with
  | nil => simp [insertA, eraseA]
  | cons hd tl ih =>
      obtain ⟨k0, v0⟩ := hd
      by_cases hk : k0 = k
      · simp [lookupA, hk] at h
      · simp only [lookupA, if_neg hk] at h
        simp [insertA, eraseA, hk, ih h]

/-- C1: the claim states that for an address with a live connection context,
`teardown_connection` scrubs the ephemeral context and removes the map
entry, so that an immediately following `get_conn_ctx` returns "not found".
The source (`ec_configurator.h` lines 302-308) scrubs via
`ec_crypto::free_connection_ctx` / `free_ephemeral_context` but never
erases the map entry, so the immediately following lookup still finds a
(scrubbed) context. This theorem evaluates the embedded code at the failing
input: one live connection for "11:22:33:44:55:66"; after teardown the
lookup returns the scrubbed context rather than "not found". -/
theorem teardown_leaves_map_entry :
    get_conn_ctx
      (teardown_connection
        [("11:22:33:44:55:66",
          { eph_ctx := { nonce := [1, 2], digest := [3, 4], session_keys := [5] },
            boot_data := { mac := some "11:22:33:44:55:66", pubkey := [9] },
            nonce_len := 2, digest_len := 2 })]
        "11:22:33:44:55:66")
      "11:22:33:44:55:66" =
    some { eph_ctx := { nonce := [0, 0], digest := [0, 0], session_keys := [] },
           boot_data := { mac := some "11:22:33:44:55:66", pubkey := [] },
           nonce_len := 2, digest_len := 2 } := by
  decide

/-- C2: calling `teardown_connection` for the same address twice in
succession is equivalent to calling it once — the second call leaves the
connection map (and every context in it) unchanged and has no failure
path. In the source the second call is a hit, not a miss (the entry is not
erased); it holds because scrubbing an already-scrubbed context is the
identity. -/
theorem teardown_connection_idempotent (conns : conn_map) (mac : String) :
    teardown_connection (teardown_connection conns mac) mac = teardown_connection conns mac := by
  cases h : lookupA conns mac with
  | none =>
      have h1 : teardown_connection conns mac = conns := by
        simp [teardown_connection, h]
      rw [h1]
      exact h1
  | some c =>
      have h1 : teardown_connection conns mac =
          insertA conns mac
            { free_connection_ctx c with
              eph_ctx := free_ephemeral_context (free_connection_ctx c).eph_ctx
                (free_connection_ctx c).nonce_len (free_connection_ctx c).digest_len } := by
        simp [teardown_connection, h]
      rw [h1]
      simp [teardown_connection, lookupA_insertA_self, insertA_insertA_same,
        free_connection_ctx, free_ephemeral_context]

/-- C6: for a MAC address with no entry in the connection map, each lookup
helper — `get_conn_ctx`, `get_eph_ctx`, `get_boot_data` — returns the
explicit "not found" result (`NULL`, here `none`) rather than failing; for
a MAC address with an entry, each returns the corresponding data of that
entry (the whole context, its ephemeral context, its bootstrapping data). -/
theorem lookup_helpers_found_or_none (conns : conn_map) (mac_hit mac_miss : String)
    (c : ec_connection_context_t)
    (hhit : lookupA conns mac_hit = some c)
    (hmiss : lookupA conns mac_miss = none) :
    get_conn_ctx conns mac_hit = some c ∧
    get_eph_ctx conns mac_hit = some c.eph_ctx ∧
    get_boot_data conns mac_hit = some c.boot_data ∧
    get_conn_ctx conns mac_miss = none ∧
    get_eph_ctx conns mac_miss = none ∧
    get_boot_data conns mac_miss = none := by
  simp [get_conn_ctx, get_eph_ctx, get_boot_data, hhit, hmiss]

/-- Concrete connection context used to exercise the C6 lookup theorem. -/
def c6_ctx : ec_connection_context_t :=
  { eph_ctx := { nonce := [7, 7], digest := [8], session_keys := [42] },
    boot_data := { mac := some "11:22:33:44:55:66", pubkey := [13] },
    nonce_len := 2, digest_len := 1 }

/-- Witness for C6: a one-entry map, looked up at its key and at an absent
key, discharging both hypotheses of the theorem concretely. -/
theorem lookup_helpers_found_or_none_witness :
    lookupA [("11:22:33:44:55:66", c6_ctx)] "11:22:33:44:55:66" = some c6_ctx ∧
    lookupA [("11:22:33:44:55:66", c6_ctx)] "aa:bb:cc:dd:ee:ff" = none ∧
    (get_conn_ctx [("11:22:33:44:55:66", c6_ctx)] "11:22:33:44:55:66" = some c6_ctx ∧
     get_eph_ctx [("11:22:33:44:55:66", c6_ctx)] "11:22:33:44:55:66" = some c6_ctx.eph_ctx ∧
     get_boot_data [("11:22:33:44:55:66", c6_ctx)] "11:22:33:44:55:66" = some c6_ctx.boot_data ∧
     get_conn_ctx [("11:22:33:44:55:66", c6_ctx)] "aa:bb:cc:dd:ee:ff" = none ∧
     get_eph_ctx [("11:22:33:44:55:66", c6_ctx)] "aa:bb:cc:dd:ee:ff" = none ∧
     get_boot_data [("11:22:33:44:55:66", c6_ctx)] "aa:bb:cc:dd:ee:ff" = none) :=
  ⟨by decide, by decide,
   lookup_helpers_found_or_none [("11:22:33:44:55:66", c6_ctx)]
     "11:22:33:44:55:66" "aa:bb:cc:dd:ee:ff" c6_ctx (by decide) (by decide)⟩

/-- C10: every Proxy-Agent engine built through its public constructor has
an empty (unbound) can-onboard-additional-APs capability: the constructor
(`ec_pa_configurator.h` lines 29-46) passes `{}` — the empty
`std::function`, modelled as `none` — to the base constructor for this
binding. The bindings live in the immutable `ec_pa_configurator_fields`
record, which no engine operation modifies, so the admission-control query
stays unavailable for the whole lifetime of the instance. -/
theorem pa_can_onboard_unbound (mac_addr : String)
    (send_chirp_notification : em_dpp_chirp_value_t → Nat → Bool)
    (send_prox_encap_dpp_msg : em_encap_dpp_t → Nat → Option em_dpp_chirp_value_t → Nat → Bool)
    (send_action_frame : String → List Nat → Nat → Nat → Bool)
    (get_sta_info_func : Option ec_connection_context_t → Option (List Nat))
    (ieee1905_info_func : Option ec_connection_context_t → Option (List Nat))
    (toggle_cce_fn : Bool → Bool) :
    (ec_pa_configurator_ctor mac_addr send_chirp_notification send_prox_encap_dpp_msg
      send_action_frame get_sta_info_func ieee1905_info_func
      toggle_cce_fn).base.m_can_onboard_additional_aps = none := rfl

theorem mem_keys_insertA {α : Type} (m : List (String × α)) (k a : String) (v : α)
    (h : a ∈ (insertA m k v).map Prod.fst) : a = k ∨ a ∈ m.map Prod.fst := by
  induction m with
  | nil =>
      simp [insertA] at h
      exact Or.inl h
  | cons hd tl ih =>
      obtain ⟨k0, v0⟩ := hd
      by_cases hk : k0 = k
      · simp only [insertA, if_pos hk, List.map_cons, List.mem_cons] at h
        rcases h with h | h
        · exact Or.inl h
        · exact Or.inr (by simp [h])
      · simp only [insertA, if_neg hk, List.map_cons, List.mem_cons] at h
        rcases h with h | h
        · exact Or.inr (by simp [h])
        · rcases ih h with h1 | h1
          · exact Or.inl h1
          · exact Or.inr (by simp [h1])

theorem keys_nodup_insertA {α : Type} (m : List (String × α)) (k : String) (v : α)
    (h : (m.map Prod.fst).Nodup) : ((insertA m k v).map Prod.fst).Nodup := by
  induction m with
  | nil => simp [insertA]
  | cons hd tl ih =>
      obtain ⟨k0, v0⟩ := hd
      simp only [List.map_cons, List.nodup_cons] at h
      by_cases hk : k0 = k
      · subst hk
        rw [show insertA ((k0, v0) :: tl) k0 v = (k0, v) :: tl from by simp [insertA]]
        simp only [List.map_cons, List.nodup_cons]
        exact h
      · simp only [insertA, if_neg hk, List.map_cons, List.nodup_cons]
        refine ⟨?_, ih h.2⟩
        intro hmem
        rcases mem_keys_insertA tl k k0 v hmem with h1 | h1
        · exact hk h1
        · exact h.1 h1

/-- C3: for a hash `h` present in the chirp-hash cache, the first
`process_chirp_notification` carrying `h` succeeds (given the wireless
transport accepts the frame) and removes `h` from the cache; an immediately
following second notification carrying the same hash, with no intervening
presence announcement, fails; and a notification whose hash was never
cached fails. -/
theorem chirp_exactly_once
    (env : ec_pa_configurator_fields) (crypto : ec_crypto_ops) (s : ec_pa_state)
    (c c2 : em_dpp_chirp_value_t) (len len2 : Nat)
    (h h2 : String) (entry : String × List Nat)
    (hnodup : (s.m_chirp_hash_frame_map.map Prod.fst).Nodup)
    (hp : parse_chirp_hash c len = some h)
    (hhit : lookupA s.m_chirp_hash_frame_map h = some entry)
    (hsend : env.base.m_send_action_frame entry.fst entry.snd 0 0 = true)
    (hp2 : parse_chirp_hash c2 len2 = some h2)
    (hmiss : lookupA s.m_chirp_hash_frame_map h2 = none) :
    (process_chirp_notification env crypto s c len).ok = true ∧
    lookupA (process_chirp_notification env crypto s c len).st.m_chirp_hash_frame_map h = none ∧
    (process_chirp_notification env crypto
      (process_chirp_notification env crypto s c len).st c len).ok = false ∧
    (process_chirp_notification env crypto s c2 len2).ok = false := by
  have hrun : process_chirp_notification env crypto s c len =
      ⟨true,
        { s with m_chirp_hash_frame_map := eraseA s.m_chirp_hash_frame_map h },
        [transport_call.action_frame entry.fst entry.snd 0 0]⟩ := by
    simp [process_chirp_notification, hp, hhit, hsend]
  refine ⟨by rw [hrun], ?_, ?_, ?_⟩
  · rw [hrun]
    exact lookupA_eraseA_self_of_nodup _ _ hnodup
  · rw [hrun]
    simp [process_chirp_notification, hp, lookupA_eraseA_self_of_nodup _ _ hnodup]
  · simp [process_chirp_notification, hp2, hmiss]

/-- Proxy-Agent capability bindings where every transport send succeeds,
used to exercise the handler theorems on concrete inputs. -/
def pa_env_ok : ec_pa_configurator_fields :=
  ec_pa_configurator_ctor "aa:bb:cc:dd:ee:ff"
    (fun _ _ => true) (fun _ _ _ _ => true) (fun _ _ _ _ => true)
    (fun _ => none) (fun _ => none) (fun _ => true)

/-- A concrete crypto collaborator used to exercise the handler theorems. -/
def crypto_stub : ec_crypto_ops :=
  { derive_eph_ctx := fun _ => none
    build_auth_request := fun _ => []
    advance_auth := fun _ _ => none
    recfg_matches := fun a b => a == b }

/-- Engine state holding exactly one cached chirp hash "H1", announced by
"11:22:33:44:55:66" with raw frame bytes `[1, 2, 3]`. -/
def c3_state : ec_pa_state :=
  { m_connections := []
    m_chirp_hash_frame_map := [("H1", ("11:22:33:44:55:66", [1, 2, 3]))]
    m_stored_recfg_auth_frames := [] }

/-- Witness for C3: the cached hash "H1" is consumed exactly once and the
never-cached hash "H2" fails, on a concrete state and capability set. -/
theorem chirp_exactly_once_witness :
    (c3_state.m_chirp_hash_frame_map.map Prod.fst).Nodup ∧
    parse_chirp_hash { hash := "H1", mac := "11:22:33:44:55:66" } 1 = some "H1" ∧
    lookupA c3_state.m_chirp_hash_frame_map "H1" = some ("11:22:33:44:55:66", [1, 2, 3]) ∧
    pa_env_ok.base.m_send_action_frame "11:22:33:44:55:66" [1, 2, 3] 0 0 = true ∧
    parse_chirp_hash { hash := "H2", mac := "11:22:33:44:55:66" } 1 = some "H2" ∧
    lookupA c3_state.m_chirp_hash_frame_map "H2" = none ∧
    ((process_chirp_notification pa_env_ok crypto_stub c3_state
        { hash := "H1", mac := "11:22:33:44:55:66" } 1).ok = true ∧
      lookupA (process_chirp_notification pa_env_ok crypto_stub c3_state
        { hash := "H1", mac := "11:22:33:44:55:66" } 1).st.m_chirp_hash_frame_map "H1" = none ∧
      (process_chirp_notification pa_env_ok crypto_stub
        (process_chirp_notification pa_env_ok crypto_stub c3_state
          { hash := "H1", mac := "11:22:33:44:55:66" } 1).st
        { hash := "H1", mac := "11:22:33:44:55:66" } 1).ok = false ∧
      (process_chirp_notification pa_env_ok crypto_stub c3_state
        { hash := "H2", mac := "11:22:33:44:55:66" } 1).ok = false) :=
  ⟨by decide, by decide, by decide, rfl, by decide, by decide,
   chirp_exactly_once pa_env_ok crypto_stub c3_state
     { hash := "H1", mac := "11:22:33:44:55:66" }
     { hash := "H2", mac := "11:22:33:44:55:66" } 1 1 "H1" "H2"
     ("11:22:33:44:55:66", [1, 2, 3]) (by decide) (by decide) (by decide) rfl
     (by decide) (by decide)⟩

/-- C4: if a presence announcement from source address `M` carrying
bootstrapping-key hash `H` is handled successfully (caching the
announcement frame under `H`), then a subsequent backhaul chirp
notification carrying `H` makes the engine send exactly one wireless action
frame, addressed to `M`, after which `H` is no longer in the chirp-hash
cache. -/
theorem presence_chirp_round_trip
    (env : ec_pa_configurator_fields) (crypto : ec_crypto_ops) (s : ec_pa_state)
    (f : ec_frame_t) (len : Nat) (M H : String)
    (c : em_dpp_chirp_value_t) (clen : Nat)
    (hnodup : (s.m_chirp_hash_frame_map.map Prod.fst).Nodup)
    (hp : parse_presence_hash f len = some H)
    (hok : (handle_presence_announcement env crypto s f len M).ok = true)
    (hpc : parse_chirp_hash c clen = some H)
    (hsend : env.base.m_send_action_frame M f.bytes 0 0 = true) :
    (process_chirp_notification env crypto
      (handle_presence_announcement env crypto s f len M).st c clen).sent =
      [transport_call.action_frame M f.bytes 0 0] ∧
    (process_chirp_notification env crypto
      (handle_presence_announcement env crypto s f len M).st c clen).ok = true ∧
    lookupA (process_chirp_notification env crypto
      (handle_presence_announcement env crypto s f len M).st c clen).st.m_chirp_hash_frame_map
      H = none := by
  have hst : (handle_presence_announcement env crypto s f len M).st =
      { s with m_chirp_hash_frame_map := insertA s.m_chirp_hash_frame_map H (M, f.bytes) } := by
    simp [handle_presence_announcement, hp]
  have hhit : lookupA (handle_presence_announcement env crypto s f len M).st.m_chirp_hash_frame_map
      H = some (M, f.bytes) := by
    rw [hst]
    exact lookupA_insertA_self _ _ _
  have hrun : process_chirp_notification env crypto
      (handle_presence_announcement env crypto s f len M).st c clen =
      ⟨true,
        { (handle_presence_announcement env crypto s f len M).st with
          m_chirp_hash_frame_map :=
            eraseA (handle_presence_announcement env crypto s f len M).st.m_chirp_hash_frame_map
              H },
        [transport_call.action_frame M f.bytes 0 0]⟩ := by
    simp [process_chirp_notification, hpc, hhit, hsend]
  refine ⟨by rw [hrun], by rw [hrun], ?_⟩
  rw [hrun]
  simp only
  apply lookupA_eraseA_self_of_nodup
  rw [hst]
  exact keys_nodup_insertA _ _ _ hnodup

/-- Presence-announcement frame used to exercise the C4 round trip:
carries hash "H1" with raw bytes `[4, 5, 6]`. -/
def c4_frame : ec_frame_t := { boot_hash := some "H1", bytes := [4, 5, 6] }

/-- Engine state with empty caches, the starting point of the C4 round
trip. -/
def c4_state : ec_pa_state :=
  { m_connections := [], m_chirp_hash_frame_map := [], m_stored_recfg_auth_frames := [] }

/-- Witness for C4: announcement from "11:22:33:44:55:66" carrying "H1",
then a backhaul chirp carrying "H1", on concrete state and capabilities:
exactly one action frame goes out, addressed to "11:22:33:44:55:66", and
"H1" is no longer cached. -/
theorem presence_chirp_round_trip_witness :
    (c4_state.m_chirp_hash_frame_map.map Prod.fst).Nodup ∧
    parse_presence_hash c4_frame 3 = some "H1" ∧
    (handle_presence_announcement pa_env_ok crypto_stub c4_state c4_frame 3
      "11:22:33:44:55:66").ok = true ∧
    parse_chirp_hash { hash := "H1", mac := "00:00:00:00:00:01" } 1 = some "H1" ∧
    pa_env_ok.base.m_send_action_frame "11:22:33:44:55:66" c4_frame.bytes 0 0 = true ∧
    ((process_chirp_notification pa_env_ok crypto_stub
        (handle_presence_announcement pa_env_ok crypto_stub c4_state c4_frame 3
          "11:22:33:44:55:66").st { hash := "H1", mac := "00:00:00:00:00:01" } 1).sent =
      [transport_call.action_frame "11:22:33:44:55:66" c4_frame.bytes 0 0] ∧
     (process_chirp_notification pa_env_ok crypto_stub
        (handle_presence_announcement pa_env_ok crypto_stub c4_state c4_frame 3
          "11:22:33:44:55:66").st { hash := "H1", mac := "00:00:00:00:00:01" } 1).ok = true ∧
     lookupA (process_chirp_notification pa_env_ok crypto_stub
        (handle_presence_announcement pa_env_ok crypto_stub c4_state c4_frame 3
          "11:22:33:44:55:66").st
        { hash := "H1", mac := "00:00:00:00:00:01" } 1).st.m_chirp_hash_frame_map "H1" =
      none) :=
  ⟨by decide, by decide, rfl, by decide, rfl,
   presence_chirp_round_trip pa_env_ok crypto_stub c4_state c4_frame 3
     "11:22:33:44:55:66" "H1" { hash := "H1", mac := "00:00:00:00:00:01" } 1
     (by decide) (by decide) rfl (by decide) rfl⟩

/-- A sequence of proxied encapsulated DPP messages applied in order to the
engine state: each element is the Encap DPP TLV, its length, the optional
chirp TLV and its length, exactly the arguments of
`process_proxy_encap_dpp_msg`. -/
def run_encap_msgs (env : ec_pa_configurator_fields) (crypto : ec_crypto_ops)
    (s : ec_pa_state)
    (msgs : List (em_encap_dpp_t × Nat × Option em_dpp_chirp_value_t × Nat)) : ec_pa_state :=
  msgs.foldl
    (fun st m =>
      (process_proxy_encap_dpp_msg env crypto st m.fst m.snd.fst m.snd.snd.fst m.snd.snd.snd).st)
    s

theorem process_proxy_encap_dpp_msg_st (env : ec_pa_configurator_fields)
    (crypto : ec_crypto_ops) (s : ec_pa_state) (encap_tlv : em_encap_dpp_t)
    (encap_tlv_len : Nat) (chirp_tlv : Option em_dpp_chirp_value_t) (chirp_tlv_len : Nat) :
    (process_proxy_encap_dpp_msg env crypto s encap_tlv encap_tlv_len
      chirp_tlv chirp_tlv_len).st = s := by
  unfold process_proxy_encap_dpp_msg
  repeat' split
  all_goals rfl

/-- C5: an evaluation/matching attempt against the reconfiguration-frame
cache never consumes it — after an arbitrary sequence of
`process_proxy_encap_dpp_msg` calls the stored reconfiguration
authentication frames are exactly those stored before, so a cached entry
remains matchable (one further evaluation gives the same verdict it gave
on the original state) until it is explicitly retired. -/
theorem recfg_cache_stable_under_eval (env : ec_pa_configurator_fields)
    (crypto : ec_crypto_ops) (s : ec_pa_state)
    (msgs : List (em_encap_dpp_t × Nat × Option em_dpp_chirp_value_t × Nat))
    (encap_tlv : em_encap_dpp_t) (encap_tlv_len : Nat)
    (chirp_tlv : Option em_dpp_chirp_value_t) (chirp_tlv_len : Nat) :
    (run_encap_msgs env crypto s msgs).m_stored_recfg_auth_frames =
      s.m_stored_recfg_auth_frames ∧
    (process_proxy_encap_dpp_msg env crypto (run_encap_msgs env crypto s msgs)
        encap_tlv encap_tlv_len chirp_tlv chirp_tlv_len).ok =
      (process_proxy_encap_dpp_msg env crypto s encap_tlv encap_tlv_len
        chirp_tlv chirp_tlv_len).ok := by
  have hrun : run_encap_msgs env crypto s msgs = s := by
    induction msgs generalizing s with
    | nil => rfl
    | cons m rest ih =>
        show run_encap_msgs env crypto
          (process_proxy_encap_dpp_msg env crypto s m.fst m.snd.fst m.snd.snd.fst
            m.snd.snd.snd).st rest = s
        rw [process_proxy_encap_dpp_msg_st]
        exact ih s
  rw [hrun]
  exact ⟨rfl, rfl⟩

/-- C7: `onboard_enrollee` fails when a connection context cannot be
created (here: the crypto collaborator cannot derive the ephemeral
material) and when the initial protocol send fails; and every failing
execution leaves the connection-context store exactly as it was before the
call — the partly created context, ephemeral secrets included, is torn
down. The first binder group is an arbitrary failing run; the second
exhibits creation failure; the third exhibits initial-send failure. -/
theorem onboard_enrollee_fail_restores_store
    (env envB envC : ec_configurator_fields) (crypto cryptoB cryptoC : ec_crypto_ops)
    (conns connsB connsC : conn_map) (boot bootB bootC : ec_data_t)
    (addrC : String) (ephC : ec_ephemeral_context_t)
    (hfail : (onboard_enrollee env crypto conns boot).fst = false)
    (hB : cryptoB.derive_eph_ctx bootB = none)
    (hCm : bootC.mac = some addrC)
    (hCunbound : envC.m_can_onboard_additional_aps = none)
    (hCfree : lookupA connsC addrC = none)
    (hCe : cryptoC.derive_eph_ctx bootC = some ephC)
    (hCsend : envC.m_send_action_frame addrC (cryptoC.build_auth_request bootC) 0 0 = false) :
    (onboard_enrollee env crypto conns boot).snd.fst = conns ∧
    (onboard_enrollee envB cryptoB connsB bootB).fst = false ∧
    (onboard_enrollee envC cryptoC connsC bootC).fst = false := by
  refine ⟨?_, ?_, ?_⟩
  · unfold onboard_enrollee at hfail ⊢
    cases hm : boot.mac with
    | none => simp [hm]
    | some addr =>
        simp only [hm] at hfail ⊢
        cases hex : lookupA conns addr with
        | some c =>
            cases hq : env.m_can_onboard_additional_aps with
            | none => simp [hq, hex]
            | some fq =>
                cases hf : fq () with
                | false => simp [hq, hf]
                | true => simp [hq, hf, hex]
        | none =>
            cases hd : crypto.derive_eph_ctx boot with
            | none =>
                cases hq : env.m_can_onboard_additional_aps with
                | none => simp [hq, hex, hd]
                | some fq =>
                    cases hf : fq () with
                    | false => simp [hq, hf]
                    | true => simp [hq, hf, hex, hd]
            | some eph =>
                cases hsend : env.m_send_action_frame addr
                    (crypto.build_auth_request boot) 0 0 with
                | true =>
                    cases hq : env.m_can_onboard_additional_aps with
                    | none => simp [hq, hex, hd, hsend] at hfail
                    | some fq =>
                        cases hf : fq () with
                        | false => simp [hq, hf]
                        | true => simp [hq, hf, hex, hd, hsend] at hfail
                | false =>
                    cases hq : env.m_can_onboard_additional_aps with
                    | none =>
                        simp [hq, hex, hd, hsend]
                        exact eraseA_insertA_of_not_mem _ _ _ hex
                    | some fq =>
                        cases hf : fq () with
                        | false => simp [hq, hf]
                        | true =>
                            simp [hq, hf, hex, hd, hsend]
                            exact eraseA_insertA_of_not_mem _ _ _ hex
  · unfold onboard_enrollee
    cases hm : bootB.mac with
    | none => simp
    | some addr =>
        cases hq : envB.m_can_onboard_additional_aps with
        | none =>
            by_cases hex : (lookupA connsB addr).isSome
            · simp [hex]
            · simp [hex, hB]
        | some fq =>
            cases hf : fq () with
            | false => simp [hf]
            | true =>
                by_cases hex : (lookupA connsB addr).isSome
                · simp [hex, hf]
                · simp [hex, hf, hB]
  · unfold onboard_enrollee
    simp [hCm, hCunbound, hCfree, hCe, hCsend]

/-- Base-engine capability bindings whose wireless action-frame send always
fails, used to exercise the onboarding failure path. -/
def cfg_env_sendfail : ec_configurator_fields :=
  ec_configurator_ctor "aa:bb:cc:dd:ee:ff"
    (fun _ _ => true) (fun _ _ _ _ => true) (fun _ _ _ _ => false)
    (fun _ => none) (fun _ => none) none

/-- A crypto collaborator whose ephemeral-context derivation succeeds, used
to drive the onboarding run up to the initial send. -/
def crypto_derive_ok : ec_crypto_ops :=
  { derive_eph_ctx := fun _ => some { nonce := [1], digest := [2], session_keys := [3] }
    build_auth_request := fun _ => [7]
    advance_auth := fun _ _ => none
    recfg_matches := fun a b => a == b }

/-- Bootstrapping data with no parseable enrollee address. -/
def c7_boot_noaddr : ec_data_t := { mac := none, pubkey := [] }

/-- Bootstrapping data for enrollee "22:22:22:22:22:22". -/
def c7_bootB : ec_data_t := { mac := some "22:22:22:22:22:22", pubkey := [4] }

/-- Bootstrapping data for enrollee "11:22:33:44:55:66". -/
def c7_bootC : ec_data_t := { mac := some "11:22:33:44:55:66", pubkey := [9] }

/-- Witness for C7: three concrete failing onboarding runs — no parseable
address, crypto derivation failure, initial-send failure — each returns
failure and the connection store is exactly the (empty) store from before
the call. -/
theorem onboard_enrollee_fail_restores_store_witness :
    (onboard_enrollee cfg_env_sendfail crypto_derive_ok [] c7_boot_noaddr).fst = false ∧
    crypto_stub.derive_eph_ctx c7_bootB = none ∧
    c7_bootC.mac = some "11:22:33:44:55:66" ∧
    cfg_env_sendfail.m_can_onboard_additional_aps = none ∧
    lookupA ([] : conn_map) "11:22:33:44:55:66" = none ∧
    crypto_derive_ok.derive_eph_ctx c7_bootC =
      some { nonce := [1], digest := [2], session_keys := [3] } ∧
    cfg_env_sendfail.m_send_action_frame "11:22:33:44:55:66"
      (crypto_derive_ok.build_auth_request c7_bootC) 0 0 = false ∧
    ((onboard_enrollee cfg_env_sendfail crypto_derive_ok [] c7_boot_noaddr).snd.fst = [] ∧
     (onboard_enrollee cfg_env_sendfail crypto_stub [] c7_bootB).fst = false ∧
     (onboard_enrollee cfg_env_sendfail crypto_derive_ok [] c7_bootC).fst = false) :=
  ⟨rfl, rfl, rfl, rfl, rfl, rfl, rfl,
   onboard_enrollee_fail_restores_store cfg_env_sendfail cfg_env_sendfail cfg_env_sendfail
     crypto_derive_ok crypto_stub crypto_derive_ok [] [] [] c7_boot_noaddr c7_bootB c7_bootC
     "11:22:33:44:55:66" { nonce := [1], digest := [2], session_keys := [3] }
     rfl rfl rfl rfl rfl rfl rfl⟩

/-- C8: `handle_auth_response` invoked with a source address that has no
connection context returns failure, leaves the engine state unchanged, and
makes no transport call — neither a wireless action frame nor a backhaul
message goes out (the sent-call list is empty). -/
theorem handle_auth_response_no_ctx (env : ec_pa_configurator_fields)
    (crypto : ec_crypto_ops) (s : ec_pa_state) (frame : ec_frame_t) (len : Nat)
    (src_mac : String)
    (hmiss : lookupA s.m_connections src_mac = none) :
    handle_auth_response env crypto s frame len src_mac = ⟨false, s, []⟩ := by
  simp [handle_auth_response, get_conn_ctx, hmiss]

/-- Engine state of a Proxy-Agent with no connection contexts, used for the
C8 scenario. -/
def c8_state : ec_pa_state :=
  { m_connections := [], m_chirp_hash_frame_map := [], m_stored_recfg_auth_frames := [] }

/-- Witness for C8: the Proxy-Agent engine for local address
"aa:bb:cc:dd:ee:ff" fed an authentication-response frame from an address
with no context returns failure with no transport call. -/
theorem handle_auth_response_no_ctx_witness :
    lookupA c8_state.m_connections "11:22:33:44:55:66" = none ∧
    handle_auth_response pa_env_ok crypto_stub c8_state
      { boot_hash := none, bytes := [9] } 1 "11:22:33:44:55:66" = ⟨false, c8_state, []⟩ :=
  ⟨rfl,
   handle_auth_response_no_ctx pa_env_ok crypto_stub c8_state
     { boot_hash := none, bytes := [9] } 1 "11:22:33:44:55:66" rfl⟩

/-- C9: fail-closed CCE-IE toggle — if enabling the onboarding (CCE)
information element fails, then when the operation returns every such
element has been removed: a subsequent check observes zero onboarding IEs
advertised, never a partially applied state. -/
theorem toggle_cce_fail_closed (driver_ok : Bool) (templates : Nat) (st : cce_state)
    (hfail : (toggle_cce driver_ok templates true st).fst = false) :
    (toggle_cce driver_ok templates true st).snd.advertised = 0 := by
  cases driver_ok with
  | true => simp [toggle_cce] at hfail
  | false => simp [toggle_cce]

/-- Witness for C9: enabling with a failing driver on a radio with three
frame templates, starting from a state that already advertised two IEs,
ends with zero IEs advertised. -/
theorem toggle_cce_fail_closed_witness :
    (toggle_cce false 3 true { advertised := 2 }).fst = false ∧
    (toggle_cce false 3 true { advertised := 2 }).snd.advertised = 0 :=
  ⟨rfl, toggle_cce_fail_closed false 3 { advertised := 2 } rfl⟩
